import Mathlib

/-!
Shallow embedding of the meta-tags-writer library
(src/src/meta-tags-writer.cjs, canonical variant exporting
SEOMetaTags / OpenGraphMetaTags / TwitterMetaTags / PageMetaTags /
CommonMetaTags / Config).

Each writer class is a record of optional string fields plus the
snapshotted global flag; JS `undefined` is `none`.  A JS conditional
`if (this.f) ...` tests string truthiness: `undefined` and `""` are
falsy, every other string is truthy.  `Array.prototype.push` appends at
the end; `Array.prototype.join(sep)` is `jsJoin`.  The mutable global
`Config` object is passed explicitly: constructors receive the value the
global holds at construction time, and `writeAtGlobal` receives the
value the global holds at serialize time (the source body never reads
it, only the instance field, which the embedding makes explicit by
ignoring that argument).
-/

namespace MetaTagsWriter

/-- JS string truthiness for an optional string field: `undefined` and
the empty string are falsy, every other string is truthy. -/
def truthy : Option String → Bool
  | none => false
  | some v => v != ""

/-- JS `Array.prototype.join(sep)`. -/
def jsJoin (sep : String) : List String → String
  | [] => ""
  | [x] => x
  | x :: xs => x ++ sep ++ jsJoin sep xs

/-- The global configuration object (`Config` in the source): a single
mutable boolean flag, modelled by passing its current value explicitly. -/
structure Config where
  useNewLineBetweenEntries : Bool

/-- State of a `SEOMetaTags` instance (constructor fields in source order). -/
structure SEOMetaTags where
  useNewLineBetweenEntries : Bool
  title : Option String
  description : Option String
  keywords : Option String
  robots : Option String
  googlebot : Option String
  bingbot : Option String
  canonical : Option String

/-- The `SEOMetaTags` constructor: snapshots the global flag and leaves
every field `undefined`. -/
def SEOMetaTags.init (cfg : Config) : SEOMetaTags :=
  { useNewLineBetweenEntries := cfg.useNewLineBetweenEntries
    title := none
    description := none
    keywords := none
    robots := none
    googlebot := none
    bingbot := none
    canonical := none }

/-- The `tags` array built by `SEOMetaTags.write` just before the final
`join`: one conditional `push` per field, in source order. -/
def SEOMetaTags.lines (s : SEOMetaTags) : List String :=
  let tags : List String := []
  let tags := if truthy s.title then tags ++ ["<title>" ++ s.title.getD "" ++ "</title>"] else tags
  let tags := if truthy s.description then tags ++ ["<meta name=\"description\" content=\"" ++ s.description.getD "" ++ "\">"] else tags
  let tags := if truthy s.keywords then tags ++ ["<meta name=\"keywords\" content=\"" ++ s.keywords.getD "" ++ "\">"] else tags
  let tags := if truthy s.robots then tags ++ ["<meta name=\"robots\" content=\"" ++ s.robots.getD "" ++ "\">"] else tags
  let tags := if truthy s.googlebot then tags ++ ["<meta name=\"googlebot\" content=\"" ++ s.googlebot.getD "" ++ "\">"] else tags
  let tags := if truthy s.bingbot then tags ++ ["<meta name=\"bingbot\" content=\"" ++ s.bingbot.getD "" ++ "\">"] else tags
  let tags := if truthy s.canonical then tags ++ ["<link rel=\"canonical\" href=\"" ++ s.canonical.getD "" ++ "\">"] else tags
  tags

/-- `SEOMetaTags.write`: joins the pushed tags with the separator chosen
by the instance field `this.useNewLineBetweenEntries`. -/
def SEOMetaTags.write (s : SEOMetaTags) : String :=
  jsJoin (if s.useNewLineBetweenEntries then "\n" else "") s.lines

/-- Calling `write` while the global flag currently holds `g`.  The
source body reads only `this.useNewLineBetweenEntries`, never the global
object, so the current global value is ignored. -/
def SEOMetaTags.writeAtGlobal (g : Bool) (s : SEOMetaTags) : String :=
  s.write

/-- Modelled from the spec: the live-read serialization policy the spec
mandates in §3 for the newline flag (absent from the source, which
snapshots the flag at construction): the join separator is chosen by the
value the global flag holds at serialize time. -/
def SEOMetaTags.writeLive (g : Bool) (s : SEOMetaTags) : String :=
  jsJoin (if g then "\n" else "") s.lines

/-- The source method performs no assignment to any instance field, so
its effect on the instance is the identity: it returns the serialized
string paired with the unchanged state. -/
def SEOMetaTags.writeM (s : SEOMetaTags) : String × SEOMetaTags :=
  (s.write, s)

/-- State of an `OpenGraphMetaTags` instance (constructor fields in
source order). -/
structure OpenGraphMetaTags where
  useNewLineBetweenEntries : Bool
  title : Option String
  description : Option String
  image : Option String
  url : Option String
  type : Option String
  siteName : Option String

/-- The `OpenGraphMetaTags` constructor: snapshots the global flag,
defaults `type` to `"website"`, leaves the rest `undefined`. -/
def OpenGraphMetaTags.init (cfg : Config) : OpenGraphMetaTags :=
  { useNewLineBetweenEntries := cfg.useNewLineBetweenEntries
    title := none
    description := none
    image := none
    url := none
    type := some "website"
    siteName := none }

/-- The `tags` array built by `OpenGraphMetaTags.write` before the join. -/
def OpenGraphMetaTags.lines (o : OpenGraphMetaTags) : List String :=
  let tags : List String := []
  let tags := if truthy o.title then tags ++ ["<meta property=\"og:title\" content=\"" ++ o.title.getD "" ++ "\">"] else tags
  let tags := if truthy o.description then tags ++ ["<meta property=\"og:description\" content=\"" ++ o.description.getD "" ++ "\">"] else tags
  let tags := if truthy o.image then tags ++ ["<meta property=\"og:image\" content=\"" ++ o.image.getD "" ++ "\">"] else tags
  let tags := if truthy o.url then tags ++ ["<meta property=\"og:url\" content=\"" ++ o.url.getD "" ++ "\">"] else tags
  let tags := if truthy o.type then tags ++ ["<meta property=\"og:type\" content=\"" ++ o.type.getD "" ++ "\">"] else tags
  let tags := if truthy o.siteName then tags ++ ["<meta property=\"og:site_name\" content=\"" ++ o.siteName.getD "" ++ "\">"] else tags
  tags

/-- `OpenGraphMetaTags.write`. -/
def OpenGraphMetaTags.write (o : OpenGraphMetaTags) : String :=
  jsJoin (if o.useNewLineBetweenEntries then "\n" else "") o.lines

/-- Calling `OpenGraphMetaTags.write` while the global flag holds `g`;
the body only reads the instance field. -/
def OpenGraphMetaTags.writeAtGlobal (g : Bool) (o : OpenGraphMetaTags) : String :=
  o.write

/-- The source method performs no assignment to any instance field:
serialized string paired with the unchanged state. -/
def OpenGraphMetaTags.writeM (o : OpenGraphMetaTags) : String × OpenGraphMetaTags :=
  (o.write, o)

/-- State of a `TwitterMetaTags` instance (constructor fields in source
order). -/
structure TwitterMetaTags where
  useNewLineBetweenEntries : Bool
  title : Option String
  description : Option String
  image : Option String
  card : Option String
  creator : Option String
  site : Option String

/-- The `TwitterMetaTags` constructor: snapshots the global flag,
defaults `card` to `"summary_large_image"`, leaves the rest `undefined`. -/
def TwitterMetaTags.init (cfg : Config) : TwitterMetaTags :=
  { useNewLineBetweenEntries := cfg.useNewLineBetweenEntries
    title := none
    description := none
    image := none
    card := some "summary_large_image"
    creator := none
    site := none }

/-- The `tags` array built by `TwitterMetaTags.write` before the join:
card first, then title, description, image, creator, site. -/
def TwitterMetaTags.lines (t : TwitterMetaTags) : List String :=
  let tags : List String := []
  let tags := if truthy t.card then tags ++ ["<meta name=\"twitter:card\" content=\"" ++ t.card.getD "" ++ "\">"] else tags
  let tags := if truthy t.title then tags ++ ["<meta name=\"twitter:title\" content=\"" ++ t.title.getD "" ++ "\">"] else tags
  let tags := if truthy t.description then tags ++ ["<meta name=\"twitter:description\" content=\"" ++ t.description.getD "" ++ "\">"] else tags
  let tags := if truthy t.image then tags ++ ["<meta name=\"twitter:image\" content=\"" ++ t.image.getD "" ++ "\">"] else tags
  let tags := if truthy t.creator then tags ++ ["<meta name=\"twitter:creator\" content=\"" ++ t.creator.getD "" ++ "\">"] else tags
  let tags := if truthy t.site then tags ++ ["<meta name=\"twitter:site\" content=\"" ++ t.site.getD "" ++ "\">"] else tags
  tags

/-- `TwitterMetaTags.write`. -/
def TwitterMetaTags.write (t : TwitterMetaTags) : String :=
  jsJoin (if t.useNewLineBetweenEntries then "\n" else "") t.lines

/-- Calling `TwitterMetaTags.write` while the global flag holds `g`;
the body only reads the instance field. -/
def TwitterMetaTags.writeAtGlobal (g : Bool) (t : TwitterMetaTags) : String :=
  t.write

/-- The source method performs no assignment to any instance field:
serialized string paired with the unchanged state. -/
def TwitterMetaTags.writeM (t : TwitterMetaTags) : String × TwitterMetaTags :=
  (t.write, t)

/-- State of a `PageMetaTags` instance (constructor fields in source
order). -/
structure PageMetaTags where
  useNewLineBetweenEntries : Bool
  charset : Option String
  viewport : Option String
  themeColor : Option String

/-- The `PageMetaTags` constructor: snapshots the global flag, defaults
`charset` to `"UTF-8"` and `viewport` to the device-width string. -/
def PageMetaTags.init (cfg : Config) : PageMetaTags :=
  { useNewLineBetweenEntries := cfg.useNewLineBetweenEntries
    charset := some "UTF-8"
    viewport := some "width=device-width, initial-scale=1.0"
    themeColor := none }

/-- The `tags` array built by `PageMetaTags.write` before the join. -/
def PageMetaTags.lines (p : PageMetaTags) : List String :=
  let tags : List String := []
  let tags := if truthy p.charset then tags ++ ["<meta charset=\"" ++ p.charset.getD "" ++ "\">"] else tags
  let tags := if truthy p.viewport then tags ++ ["<meta name=\"viewport\" content=\"" ++ p.viewport.getD "" ++ "\">"] else tags
  let tags := if truthy p.themeColor then tags ++ ["<meta name=\"theme-color\" content=\"" ++ p.themeColor.getD "" ++ "\">"] else tags
  tags

/-- `PageMetaTags.write`. -/
def PageMetaTags.write (p : PageMetaTags) : String :=
  jsJoin (if p.useNewLineBetweenEntries then "\n" else "") p.lines

/-- Calling `PageMetaTags.write` while the global flag holds `g`; the
body only reads the instance field. -/
def PageMetaTags.writeAtGlobal (g : Bool) (p : PageMetaTags) : String :=
  p.write

/-- The source method performs no assignment to any instance field:
serialized string paired with the unchanged state. -/
def PageMetaTags.writeM (p : PageMetaTags) : String × PageMetaTags :=
  (p.write, p)

/-- State of a `CommonMetaTags` instance: the aggregator owns one
instance of every writer. -/
structure CommonMetaTags where
  useNewLineBetweenEntries : Bool
  page : PageMetaTags
  seo : SEOMetaTags
  og : OpenGraphMetaTags
  twitter : TwitterMetaTags

/-- The `CommonMetaTags` constructor: snapshots the global flag and
eagerly constructs the four sub-writers. -/
def CommonMetaTags.init (cfg : Config) : CommonMetaTags :=
  { useNewLineBetweenEntries := cfg.useNewLineBetweenEntries
    page := PageMetaTags.init cfg
    seo := SEOMetaTags.init cfg
    og := OpenGraphMetaTags.init cfg
    twitter := TwitterMetaTags.init cfg }

/-- `CommonMetaTags.setTitleForAll`: assigns the title to the SEO,
Open Graph and Twitter records. -/
def CommonMetaTags.setTitleForAll (c : CommonMetaTags) (title : String) : CommonMetaTags :=
  { c with
    seo := { c.seo with title := some title }
    og := { c.og with title := some title }
    twitter := { c.twitter with title := some title } }

/-- `CommonMetaTags.setDescriptionForAll`. -/
def CommonMetaTags.setDescriptionForAll (c : CommonMetaTags) (description : String) : CommonMetaTags :=
  { c with
    seo := { c.seo with description := some description }
    og := { c.og with description := some description }
    twitter := { c.twitter with description := some description } }

/-- `CommonMetaTags.setImageForAll`. -/
def CommonMetaTags.setImageForAll (c : CommonMetaTags) (imageUrl : String) : CommonMetaTags :=
  { c with
    og := { c.og with image := some imageUrl }
    twitter := { c.twitter with image := some imageUrl } }

/-- The options record accepted by `CommonMetaTags.write`; the JS
default argument is the object with `newLine` false. -/
structure WriteOptions where
  newLine : Bool

/-- `CommonMetaTags.write(options)`: joins the four sub-writers' output,
in fixed order, with the separator chosen by `options.newLine`. -/
def CommonMetaTags.write (c : CommonMetaTags) (options : WriteOptions) : String :=
  jsJoin (if options.newLine then "\n" else "")
    [c.page.write, c.seo.write, c.og.write, c.twitter.write]

/-- `CommonMetaTags.write()` called with no argument: the JS default
parameter supplies the record with `newLine` false. -/
def CommonMetaTags.writeNoArg (c : CommonMetaTags) : String :=
  c.write { newLine := false }

/-- The source method performs no assignment to any field of the
aggregator or its sub-writers: serialized string paired with the
unchanged state. -/
def CommonMetaTags.writeM (c : CommonMetaTags) (options : WriteOptions) : String × CommonMetaTags :=
  (c.write options, c)

/-- Two character lists disagree at some common index (scanning from the
head). -/
def charsDiffer : List Char → List Char → Bool
  | a :: as, b :: bs => a != b || charsDiffer as bs
  | _, _ => false

/-- Whether the string `l` starts with the string `m`. -/
def startsWithStr (m l : String) : Bool :=
  m.data.isPrefixOf l.data

/-- Whether some emitted line starts with the marker `m`. -/
def anyLineStarts (m : String) (ls : List String) : Bool :=
  ls.any (startsWithStr m)

/-- A `SEOMetaTags` instance built while the global flag was true, with
two fields assigned afterwards. -/
def sC1 : SEOMetaTags :=
  { SEOMetaTags.init ⟨true⟩ with title := some "a", description := some "b" }

/-- An instance constructed while the global flag held `g`, with every
field then assigned by the caller. -/
def SEOMetaTags.withAll (g : Bool) (t d k r gb bb cn : Option String) : SEOMetaTags :=
  { SEOMetaTags.init ⟨g⟩ with
    title := t
    description := d
    keywords := k
    robots := r
    googlebot := gb
    bingbot := bb
    canonical := cn }

/-- An instance constructed while the global flag held `g`, with every
field then assigned by the caller. -/
def OpenGraphMetaTags.withAll (g : Bool) (t d im u ty sn : Option String) : OpenGraphMetaTags :=
  { OpenGraphMetaTags.init ⟨g⟩ with
    title := t
    description := d
    image := im
    url := u
    type := ty
    siteName := sn }

/-- An instance constructed while the global flag held `g`, with every
field then assigned by the caller. -/
def TwitterMetaTags.withAll (g : Bool) (cd t d im cr st : Option String) : TwitterMetaTags :=
  { TwitterMetaTags.init ⟨g⟩ with
    card := cd
    title := t
    description := d
    image := im
    creator := cr
    site := st }

/-- An instance constructed while the global flag held `g`, with every
field then assigned by the caller. -/
def PageMetaTags.withAll (g : Bool) (cs vp th : Option String) : PageMetaTags :=
  { PageMetaTags.init ⟨g⟩ with
    charset := cs
    viewport := vp
    themeColor := th }

/-- An aggregator every one of whose fields, defaults included, has been
reset to the absent state. -/
def clearedCommon : CommonMetaTags :=
  { useNewLineBetweenEntries := true
    page := { useNewLineBetweenEntries := true, charset := none, viewport := none, themeColor := none }
    seo := { useNewLineBetweenEntries := true, title := none, description := none, keywords := none,
             robots := none, googlebot := none, bingbot := none, canonical := none }
    og := { useNewLineBetweenEntries := true, title := none, description := none, image := none,
            url := none, type := none, siteName := none }
    twitter := { useNewLineBetweenEntries := true, title := none, description := none, image := none,
                 card := none, creator := none, site := none } }

/- ------------------------------------------------------------------ -/
/- Helper lemmas                                                       -/
/- ------------------------------------------------------------------ -/

/-- Membership in a conditional singleton list yields the condition and
the equality. -/
theorem mem_ite_singleton {α : Type} {c : Prop} [Decidable c] {x l : α}
    (h : x ∈ if c then [l] else ([] : List α)) : c ∧ x = l := by
  by_cases hc : c
  · rw [if_pos hc] at h
    exact ⟨hc, List.mem_singleton.mp h⟩
  · rw [if_neg hc] at h
    exact absurd h (List.not_mem_nil x)

/-- A list that disagrees with `q` at a common index is not a prefix of
`q ++ r`, whatever `r` is. -/
theorem charsDiffer_not_isPrefixOf :
    ∀ (p q r : List Char), charsDiffer p q = true → p.isPrefixOf (q ++ r) = false := by
  intro p
  induction p with
  | nil =>
    intro q r h
    cases q <;> simp [charsDiffer] at h
  | cons a as ih =>
    intro q r h
    cases q with
    | nil => simp [charsDiffer] at h
    | cons b bs =>
      simp only [charsDiffer, Bool.or_eq_true, bne_iff_ne, ne_eq] at h
      rcases h with h | h
      · simp [List.isPrefixOf, h]
      · simp [List.isPrefixOf, ih bs r h]

/-- Any list is a (Boolean) prefix of itself followed by anything. -/
theorem isPrefixOf_self_append :
    ∀ (p r : List Char), p.isPrefixOf (p ++ r) = true := by
  intro p
  induction p with
  | nil => intro r; simp [List.isPrefixOf]
  | cons a as ih => intro r; simp [List.isPrefixOf, ih]

/-- A line of shape `a ++ v ++ b` does not start with a marker that
disagrees with the fixed head `a`, whatever the field value `v` is. -/
theorem not_startsWith_line (m a v b : String)
    (h : charsDiffer m.data a.data = true) :
    ¬ startsWithStr m (a ++ v ++ b) = true := by
  have hd : (a ++ v ++ b).data = a.data ++ (v.data ++ b.data) := by
    rw [String.data_append, String.data_append, List.append_assoc]
  rw [startsWithStr, hd, charsDiffer_not_isPrefixOf m.data a.data (v.data ++ b.data) h]
  simp

/-- A line of shape `m ++ v ++ b` starts with its own fixed head `m`. -/
theorem startsWith_self_line (m v b : String) :
    startsWithStr m (m ++ v ++ b) = true := by
  have hd : (m ++ v ++ b).data = m.data ++ (v.data ++ b.data) := by
    rw [String.data_append, String.data_append, List.append_assoc]
  rw [startsWithStr, hd]
  exact isPrefixOf_self_append m.data (v.data ++ b.data)

/-- A conditional singleton list is a sublist of the plain singleton. -/
theorem ite_singleton_sublist {α : Type} {c : Prop} [Decidable c] (x : α) :
    List.Sublist (if c then [x] else []) [x] := by
  split
  · exact List.Sublist.refl [x]
  · exact List.nil_sublist [x]

/-- Unfolding of the JS join on a four-element array. -/
theorem jsJoin_four (sep a b c d : String) :
    jsJoin sep [a, b, c, d] = a ++ sep ++ (b ++ sep ++ (c ++ sep ++ d)) := rfl

/-- Merging two adjacent newline separators into the two-character
newline string. -/
theorem append_nlnl (p x : String) : p ++ "\n" ++ ("\n" ++ x) = p ++ "\n\n" ++ x := by
  rw [String.append_assoc, ← String.append_assoc ("\n" : String) "\n" x,
    show ("\n" ++ "\n" : String) = "\n\n" from rfl, ← String.append_assoc]

theorem seo_lines_eq (s : SEOMetaTags) :
    s.lines =
      (if truthy s.title then ["<title>" ++ s.title.getD "" ++ "</title>"] else [])
      ++ (if truthy s.description then ["<meta name=\"description\" content=\"" ++ s.description.getD "" ++ "\">"] else [])
      ++ (if truthy s.keywords then ["<meta name=\"keywords\" content=\"" ++ s.keywords.getD "" ++ "\">"] else [])
      ++ (if truthy s.robots then ["<meta name=\"robots\" content=\"" ++ s.robots.getD "" ++ "\">"] else [])
      ++ (if truthy s.googlebot then ["<meta name=\"googlebot\" content=\"" ++ s.googlebot.getD "" ++ "\">"] else [])
      ++ (if truthy s.bingbot then ["<meta name=\"bingbot\" content=\"" ++ s.bingbot.getD "" ++ "\">"] else [])
      ++ (if truthy s.canonical then ["<link rel=\"canonical\" href=\"" ++ s.canonical.getD "" ++ "\">"] else []) := by
  unfold SEOMetaTags.lines
  split_ifs <;> simp

/-- Any element of the pushed-tags list of a `SEOMetaTags` instance is
one of the seven field lines, with that field truthy. -/
theorem seo_mem_lines {s : SEOMetaTags} {x : String} (hx : x ∈ s.lines) :
    (truthy s.title = true ∧ x = "<title>" ++ s.title.getD "" ++ "</title>")
    ∨ (truthy s.description = true ∧ x = "<meta name=\"description\" content=\"" ++ s.description.getD "" ++ "\">")
    ∨ (truthy s.keywords = true ∧ x = "<meta name=\"keywords\" content=\"" ++ s.keywords.getD "" ++ "\">")
    ∨ (truthy s.robots = true ∧ x = "<meta name=\"robots\" content=\"" ++ s.robots.getD "" ++ "\">")
    ∨ (truthy s.googlebot = true ∧ x = "<meta name=\"googlebot\" content=\"" ++ s.googlebot.getD "" ++ "\">")
    ∨ (truthy s.bingbot = true ∧ x = "<meta name=\"bingbot\" content=\"" ++ s.bingbot.getD "" ++ "\">")
    ∨ (truthy s.canonical = true ∧ x = "<link rel=\"canonical\" href=\"" ++ s.canonical.getD "" ++ "\">") := by
  rw [seo_lines_eq] at hx
  simp only [List.mem_append] at hx
  rcases hx with ((((((hx | hx) | hx) | hx) | hx) | hx) | hx)
  · exact Or.inl (mem_ite_singleton hx)
  · exact Or.inr (Or.inl (mem_ite_singleton hx))
  · exact Or.inr (Or.inr (Or.inl (mem_ite_singleton hx)))
  · exact Or.inr (Or.inr (Or.inr (Or.inl (mem_ite_singleton hx))))
  · exact Or.inr (Or.inr (Or.inr (Or.inr (Or.inl (mem_ite_singleton hx)))))
  · exact Or.inr (Or.inr (Or.inr (Or.inr (Or.inr (Or.inl (mem_ite_singleton hx))))))
  · exact Or.inr (Or.inr (Or.inr (Or.inr (Or.inr (Or.inr (mem_ite_singleton hx))))))

theorem og_lines_eq (o : OpenGraphMetaTags) :
    o.lines =
      (if truthy o.title then ["<meta property=\"og:title\" content=\"" ++ o.title.getD "" ++ "\">"] else [])
      ++ (if truthy o.description then ["<meta property=\"og:description\" content=\"" ++ o.description.getD "" ++ "\">"] else [])
      ++ (if truthy o.image then ["<meta property=\"og:image\" content=\"" ++ o.image.getD "" ++ "\">"] else [])
      ++ (if truthy o.url then ["<meta property=\"og:url\" content=\"" ++ o.url.getD "" ++ "\">"] else [])
      ++ (if truthy o.type then ["<meta property=\"og:type\" content=\"" ++ o.type.getD "" ++ "\">"] else [])
      ++ (if truthy o.siteName then ["<meta property=\"og:site_name\" content=\"" ++ o.siteName.getD "" ++ "\">"] else []) := by
  unfold OpenGraphMetaTags.lines
  split_ifs <;> simp

/-- Any element of the pushed-tags list of an `OpenGraphMetaTags`
instance is one of the six field lines, with that field truthy. -/
theorem og_mem_lines {o : OpenGraphMetaTags} {x : String} (hx : x ∈ o.lines) :
    (truthy o.title = true ∧ x = "<meta property=\"og:title\" content=\"" ++ o.title.getD "" ++ "\">")
    ∨ (truthy o.description = true ∧ x = "<meta property=\"og:description\" content=\"" ++ o.description.getD "" ++ "\">")
    ∨ (truthy o.image = true ∧ x = "<meta property=\"og:image\" content=\"" ++ o.image.getD "" ++ "\">")
    ∨ (truthy o.url = true ∧ x = "<meta property=\"og:url\" content=\"" ++ o.url.getD "" ++ "\">")
    ∨ (truthy o.type = true ∧ x = "<meta property=\"og:type\" content=\"" ++ o.type.getD "" ++ "\">")
    ∨ (truthy o.siteName = true ∧ x = "<meta property=\"og:site_name\" content=\"" ++ o.siteName.getD "" ++ "\">") := by
  rw [og_lines_eq] at hx
  simp only [List.mem_append] at hx
  rcases hx with (((((hx | hx) | hx) | hx) | hx) | hx)
  · exact Or.inl (mem_ite_singleton hx)
  · exact Or.inr (Or.inl (mem_ite_singleton hx))
  · exact Or.inr (Or.inr (Or.inl (mem_ite_singleton hx)))
  · exact Or.inr (Or.inr (Or.inr (Or.inl (mem_ite_singleton hx))))
  · exact Or.inr (Or.inr (Or.inr (Or.inr (Or.inl (mem_ite_singleton hx)))))
  · exact Or.inr (Or.inr (Or.inr (Or.inr (Or.inr (mem_ite_singleton hx)))))

theorem tw_lines_eq (t : TwitterMetaTags) :
    t.lines =
      (if truthy t.card then ["<meta name=\"twitter:card\" content=\"" ++ t.card.getD "" ++ "\">"] else [])
      ++ (if truthy t.title then ["<meta name=\"twitter:title\" content=\"" ++ t.title.getD "" ++ "\">"] else [])
      ++ (if truthy t.description then ["<meta name=\"twitter:description\" content=\"" ++ t.description.getD "" ++ "\">"] else [])
      ++ (if truthy t.image then ["<meta name=\"twitter:image\" content=\"" ++ t.image.getD "" ++ "\">"] else [])
      ++ (if truthy t.creator then ["<meta name=\"twitter:creator\" content=\"" ++ t.creator.getD "" ++ "\">"] else [])
      ++ (if truthy t.site then ["<meta name=\"twitter:site\" content=\"" ++ t.site.getD "" ++ "\">"] else []) := by
  unfold TwitterMetaTags.lines
  split_ifs <;> simp

/-- Any element of the pushed-tags list of a `TwitterMetaTags` instance
is one of the six field lines, with that field truthy. -/
theorem tw_mem_lines {t : TwitterMetaTags} {x : String} (hx : x ∈ t.lines) :
    (truthy t.card = true ∧ x = "<meta name=\"twitter:card\" content=\"" ++ t.card.getD "" ++ "\">")
    ∨ (truthy t.title = true ∧ x = "<meta name=\"twitter:title\" content=\"" ++ t.title.getD "" ++ "\">")
    ∨ (truthy t.description = true ∧ x = "<meta name=\"twitter:description\" content=\"" ++ t.description.getD "" ++ "\">")
    ∨ (truthy t.image = true ∧ x = "<meta name=\"twitter:image\" content=\"" ++ t.image.getD "" ++ "\">")
    ∨ (truthy t.creator = true ∧ x = "<meta name=\"twitter:creator\" content=\"" ++ t.creator.getD "" ++ "\">")
    ∨ (truthy t.site = true ∧ x = "<meta name=\"twitter:site\" content=\"" ++ t.site.getD "" ++ "\">") := by
  rw [tw_lines_eq] at hx
  simp only [List.mem_append] at hx
  rcases hx with (((((hx | hx) | hx) | hx) | hx) | hx)
  · exact Or.inl (mem_ite_singleton hx)
  · exact Or.inr (Or.inl (mem_ite_singleton hx))
  · exact Or.inr (Or.inr (Or.inl (mem_ite_singleton hx)))
  · exact Or.inr (Or.inr (Or.inr (Or.inl (mem_ite_singleton hx))))
  · exact Or.inr (Or.inr (Or.inr (Or.inr (Or.inl (mem_ite_singleton hx)))))
  · exact Or.inr (Or.inr (Or.inr (Or.inr (Or.inr (mem_ite_singleton hx)))))

theorem pg_lines_eq (p : PageMetaTags) :
    p.lines =
      (if truthy p.charset then ["<meta charset=\"" ++ p.charset.getD "" ++ "\">"] else [])
      ++ (if truthy p.viewport then ["<meta name=\"viewport\" content=\"" ++ p.viewport.getD "" ++ "\">"] else [])
      ++ (if truthy p.themeColor then ["<meta name=\"theme-color\" content=\"" ++ p.themeColor.getD "" ++ "\">"] else []) := by
  unfold PageMetaTags.lines
  split_ifs <;> simp

/-- Any element of the pushed-tags list of a `PageMetaTags` instance is
one of the three field lines, with that field truthy. -/
theorem pg_mem_lines {p : PageMetaTags} {x : String} (hx : x ∈ p.lines) :
    (truthy p.charset = true ∧ x = "<meta charset=\"" ++ p.charset.getD "" ++ "\">")
    ∨ (truthy p.viewport = true ∧ x = "<meta name=\"viewport\" content=\"" ++ p.viewport.getD "" ++ "\">")
    ∨ (truthy p.themeColor = true ∧ x = "<meta name=\"theme-color\" content=\"" ++ p.themeColor.getD "" ++ "\">") := by
  rw [pg_lines_eq] at hx
  simp only [List.mem_append] at hx
  rcases hx with ((hx | hx) | hx)
  · exact Or.inl (mem_ite_singleton hx)
  · exact Or.inr (Or.inl (mem_ite_singleton hx))
  · exact Or.inr (Or.inr (mem_ite_singleton hx))

/- ------------------------------------------------------------------ -/
/- Claims                                                              -/
/- ------------------------------------------------------------------ -/

/-- C1 counterexample: an instance constructed while the global flag was
true, with two fields then assigned, is serialized after the global has
been mutated to false; the output still joins the two lines with the
snapshotted newline, not with the empty separator the live-read policy
of the claim predicts. -/
theorem c1_counterexample_snapshot_not_live :
    SEOMetaTags.writeAtGlobal false sC1
        = "<title>a</title>\n<meta name=\"description\" content=\"b\">"
    ∧ SEOMetaTags.writeAtGlobal false sC1 ≠ SEOMetaTags.writeLive false sC1 := by
  exact ⟨rfl, by decide⟩

/-- C1 (amended): for every field component, the newline policy flag is
snapshotted from the global configuration at construction, not read at
serialize time: whatever fields are assigned afterwards and whatever
value `g2` the global holds when serialize is called, the emitted lines
are joined according to the construction-time value `g`. -/
theorem c1_amended_flag_snapshotted (g g2 : Bool)
    (t d k r gb bb cn : Option String)
    (ti de im u ty sn : Option String)
    (tc tt td tim tcr ts : Option String)
    (pc pv pth : Option String) :
    SEOMetaTags.writeAtGlobal g2 (SEOMetaTags.withAll g t d k r gb bb cn)
      = jsJoin (if g then "\n" else "")
          (SEOMetaTags.lines (SEOMetaTags.withAll g t d k r gb bb cn))
    ∧ OpenGraphMetaTags.writeAtGlobal g2 (OpenGraphMetaTags.withAll g ti de im u ty sn)
      = jsJoin (if g then "\n" else "")
          (OpenGraphMetaTags.lines (OpenGraphMetaTags.withAll g ti de im u ty sn))
    ∧ TwitterMetaTags.writeAtGlobal g2 (TwitterMetaTags.withAll g tc tt td tim tcr ts)
      = jsJoin (if g then "\n" else "")
          (TwitterMetaTags.lines (TwitterMetaTags.withAll g tc tt td tim tcr ts))
    ∧ PageMetaTags.writeAtGlobal g2 (PageMetaTags.withAll g pc pv pth)
      = jsJoin (if g then "\n" else "")
          (PageMetaTags.lines (PageMetaTags.withAll g pc pv pth)) := by
  exact ⟨rfl, rfl, rfl, rfl⟩

/-- C2 counterexample: on a fresh `PageMetaTags` whose charset is set to
the empty string, serialize emits no charset line at all — only the
default viewport line remains — contradicting the claim that the empty
string is treated as present. -/
theorem c2_counterexample_empty_charset_omitted :
    PageMetaTags.lines { PageMetaTags.init ⟨true⟩ with charset := some "" }
        = ["<meta name=\"viewport\" content=\"width=device-width, initial-scale=1.0\">"]
    ∧ anyLineStarts "<meta charset=\""
        (PageMetaTags.lines { PageMetaTags.init ⟨true⟩ with charset := some "" }) = false := by
  exact ⟨rfl, rfl⟩

/-- C2 (amended): serialize treats any nonempty string value of charset
as present, emitting a charset declaration line; the empty string is
falsy like the absent state, so setting charset to the empty string
omits the charset line exactly as if the field were unset. -/
theorem c2_amended_empty_charset_like_absent (p : PageMetaTags) (v : String) :
    (p.charset = some v → v ≠ "" → anyLineStarts "<meta charset=\"" p.lines = true)
    ∧ (p.charset = none ∨ p.charset = some "" →
        anyLineStarts "<meta charset=\"" p.lines = false)
    ∧ (p.viewport = some v → v ≠ "" →
        anyLineStarts "<meta name=\"viewport\" content=\"" p.lines = true)
    ∧ (p.viewport = none ∨ p.viewport = some "" →
        anyLineStarts "<meta name=\"viewport\" content=\"" p.lines = false)
    ∧ (p.themeColor = some v → v ≠ "" →
        anyLineStarts "<meta name=\"theme-color\" content=\"" p.lines = true)
    ∧ (p.themeColor = none ∨ p.themeColor = some "" →
        anyLineStarts "<meta name=\"theme-color\" content=\"" p.lines = false) := by
  refine ⟨?_, ?_, ?_, ?_, ?_, ?_⟩
  · intro h hv
    have ht : truthy p.charset = true := by rw [h]; simp [truthy, hv]
    rw [anyLineStarts, pg_lines_eq, if_pos ht, h]
    simp [List.any_append, startsWith_self_line]
  · intro h
    rw [anyLineStarts, List.any_eq_false]
    intro x hx
    rcases pg_mem_lines hx with ⟨hf, rfl⟩ | ⟨hf, rfl⟩ | ⟨hf, rfl⟩
    · rcases h with h | h <;> rw [h] at hf <;> exact absurd hf (by decide)
    · exact not_startsWith_line _ _ _ _ (by decide)
    · exact not_startsWith_line _ _ _ _ (by decide)
  · intro h hv
    have ht : truthy p.viewport = true := by rw [h]; simp [truthy, hv]
    rw [anyLineStarts, pg_lines_eq, if_pos ht, h]
    simp [List.any_append, startsWith_self_line]
  · intro h
    rw [anyLineStarts, List.any_eq_false]
    intro x hx
    rcases pg_mem_lines hx with ⟨hf, rfl⟩ | ⟨hf, rfl⟩ | ⟨hf, rfl⟩
    · exact not_startsWith_line _ _ _ _ (by decide)
    · rcases h with h | h <;> rw [h] at hf <;> exact absurd hf (by decide)
    · exact not_startsWith_line _ _ _ _ (by decide)
  · intro h hv
    have ht : truthy p.themeColor = true := by rw [h]; simp [truthy, hv]
    rw [anyLineStarts, pg_lines_eq, if_pos ht, h]
    simp [List.any_append, startsWith_self_line]
  · intro h
    rw [anyLineStarts, List.any_eq_false]
    intro x hx
    rcases pg_mem_lines hx with ⟨hf, rfl⟩ | ⟨hf, rfl⟩ | ⟨hf, rfl⟩
    · exact not_startsWith_line _ _ _ _ (by decide)
    · exact not_startsWith_line _ _ _ _ (by decide)
    · rcases h with h | h <;> rw [h] at hf <;> exact absurd hf (by decide)

/-- C2 witness: at a fresh instance charset and viewport hold nonempty
defaults and both lines are emitted; with charset cleared, or the
viewport set to the empty string, or the theme color left absent, the
corresponding line is omitted. -/
theorem c2_amended_witness :
    ((PageMetaTags.init ⟨true⟩).charset = some "UTF-8"
      ∧ anyLineStarts "<meta charset=\"" (PageMetaTags.init ⟨true⟩).lines = true
      ∧ anyLineStarts "<meta name=\"viewport\" content=\""
          (PageMetaTags.init ⟨true⟩).lines = true
      ∧ anyLineStarts "<meta name=\"theme-color\" content=\""
          (PageMetaTags.init ⟨true⟩).lines = false)
    ∧ (({ PageMetaTags.init ⟨true⟩ with charset := none } : PageMetaTags).charset = none
      ∧ anyLineStarts "<meta charset=\""
          ({ PageMetaTags.init ⟨true⟩ with charset := none } : PageMetaTags).lines = false)
    ∧ (({ PageMetaTags.init ⟨true⟩ with viewport := some "" } : PageMetaTags).viewport = some ""
      ∧ anyLineStarts "<meta name=\"viewport\" content=\""
          ({ PageMetaTags.init ⟨true⟩ with viewport := some "" } : PageMetaTags).lines = false) :=
  ⟨⟨rfl,
    (c2_amended_empty_charset_like_absent (PageMetaTags.init ⟨true⟩) "UTF-8").1 rfl
      (by decide),
    (c2_amended_empty_charset_like_absent (PageMetaTags.init ⟨true⟩)
      "width=device-width, initial-scale=1.0").2.2.1 rfl (by decide),
    (c2_amended_empty_charset_like_absent (PageMetaTags.init ⟨true⟩) "UTF-8").2.2.2.2.2
      (Or.inl rfl)⟩,
   ⟨rfl, (c2_amended_empty_charset_like_absent
      { PageMetaTags.init ⟨true⟩ with charset := none } "UTF-8").2.1 (Or.inl rfl)⟩,
   ⟨rfl, (c2_amended_empty_charset_like_absent
      { PageMetaTags.init ⟨true⟩ with viewport := some "" } "UTF-8").2.2.2.1
      (Or.inr rfl)⟩⟩

/-- C3: the aggregator's combined serialize returns exactly the four
blocks, in fixed order page/seo/og/twitter, joined with a single newline
iff `options.newLine` is true (and with nothing otherwise); the option
plays no part in the blocks themselves, and the no-argument call uses
the default `newLine := false`. -/
theorem c3_aggregator_join (c : CommonMetaTags) (options : WriteOptions) :
    CommonMetaTags.write c options
        = c.page.write ++ (if options.newLine then "\n" else "")
          ++ c.seo.write ++ (if options.newLine then "\n" else "")
          ++ c.og.write ++ (if options.newLine then "\n" else "")
          ++ c.twitter.write
    ∧ CommonMetaTags.writeNoArg c = CommonMetaTags.write c { newLine := false } := by
  constructor
  · rw [CommonMetaTags.write, jsJoin_four]
    simp only [String.append_assoc]
  · rfl

/-- C7: a freshly constructed `PageMetaTags` (under either global flag
value) emits exactly the UTF-8 charset declaration and the default
viewport line, serializes to a non-empty string, and emits no
theme-color line; a freshly constructed `OpenGraphMetaTags` emits
exactly one line, the og:type tag with content "website". -/
theorem c7_fresh_defaults (g : Bool) :
    PageMetaTags.lines (PageMetaTags.init ⟨g⟩)
        = ["<meta charset=\"UTF-8\">",
           "<meta name=\"viewport\" content=\"width=device-width, initial-scale=1.0\">"]
    ∧ PageMetaTags.write (PageMetaTags.init ⟨g⟩) ≠ ""
    ∧ anyLineStarts "<meta name=\"theme-color\""
        (PageMetaTags.lines (PageMetaTags.init ⟨g⟩)) = false
    ∧ OpenGraphMetaTags.lines (OpenGraphMetaTags.init ⟨g⟩)
        = ["<meta property=\"og:type\" content=\"website\">"]
    ∧ OpenGraphMetaTags.write (OpenGraphMetaTags.init ⟨g⟩)
        = "<meta property=\"og:type\" content=\"website\">" := by
  cases g <;> exact ⟨rfl, by decide, rfl, rfl, rfl⟩

/-- C8: every serialize operation is a pure function of the field state:
it leaves the instance (and, for the aggregator, its four sub-writers)
unchanged, and a second call with no intervening mutation returns the
identical string. -/
theorem c8_write_pure (s : SEOMetaTags) (o : OpenGraphMetaTags)
    (t : TwitterMetaTags) (p : PageMetaTags) (c : CommonMetaTags)
    (options : WriteOptions) :
    (s.writeM.2 = s ∧ s.writeM.2.writeM.1 = s.writeM.1)
    ∧ (o.writeM.2 = o ∧ o.writeM.2.writeM.1 = o.writeM.1)
    ∧ (t.writeM.2 = t ∧ t.writeM.2.writeM.1 = t.writeM.1)
    ∧ (p.writeM.2 = p ∧ p.writeM.2.writeM.1 = p.writeM.1)
    ∧ ((c.writeM options).2 = c
        ∧ ((c.writeM options).2.writeM options).1 = (c.writeM options).1) := by
  exact ⟨⟨rfl, rfl⟩, ⟨rfl, rfl⟩, ⟨rfl, rfl⟩, ⟨rfl, rfl⟩, rfl, rfl⟩

/-- C4: for every field of every component, an absent field contributes
no line to the serialized output: no emitted line starts with that
field's fixed tag head. -/
theorem c4_absent_field_emits_no_line (s : SEOMetaTags) (o : OpenGraphMetaTags)
    (t : TwitterMetaTags) (p : PageMetaTags) :
    (s.title = none → anyLineStarts "<title>" s.lines = false)
    ∧ (s.description = none → anyLineStarts "<meta name=\"description\" content=\"" s.lines = false)
    ∧ (s.keywords = none → anyLineStarts "<meta name=\"keywords\" content=\"" s.lines = false)
    ∧ (s.robots = none → anyLineStarts "<meta name=\"robots\" content=\"" s.lines = false)
    ∧ (s.googlebot = none → anyLineStarts "<meta name=\"googlebot\" content=\"" s.lines = false)
    ∧ (s.bingbot = none → anyLineStarts "<meta name=\"bingbot\" content=\"" s.lines = false)
    ∧ (s.canonical = none → anyLineStarts "<link rel=\"canonical\" href=\"" s.lines = false)
    ∧ (o.title = none → anyLineStarts "<meta property=\"og:title\" content=\"" o.lines = false)
    ∧ (o.description = none → anyLineStarts "<meta property=\"og:description\" content=\"" o.lines = false)
    ∧ (o.image = none → anyLineStarts "<meta property=\"og:image\" content=\"" o.lines = false)
    ∧ (o.url = none → anyLineStarts "<meta property=\"og:url\" content=\"" o.lines = false)
    ∧ (o.type = none → anyLineStarts "<meta property=\"og:type\" content=\"" o.lines = false)
    ∧ (o.siteName = none → anyLineStarts "<meta property=\"og:site_name\" content=\"" o.lines = false)
    ∧ (t.card = none → anyLineStarts "<meta name=\"twitter:card\" content=\"" t.lines = false)
    ∧ (t.title = none → anyLineStarts "<meta name=\"twitter:title\" content=\"" t.lines = false)
    ∧ (t.description = none → anyLineStarts "<meta name=\"twitter:description\" content=\"" t.lines = false)
    ∧ (t.image = none → anyLineStarts "<meta name=\"twitter:image\" content=\"" t.lines = false)
    ∧ (t.creator = none → anyLineStarts "<meta name=\"twitter:creator\" content=\"" t.lines = false)
    ∧ (t.site = none → anyLineStarts "<meta name=\"twitter:site\" content=\"" t.lines = false)
    ∧ (p.charset = none → anyLineStarts "<meta charset=\"" p.lines = false)
    ∧ (p.viewport = none → anyLineStarts "<meta name=\"viewport\" content=\"" p.lines = false)
    ∧ (p.themeColor = none → anyLineStarts "<meta name=\"theme-color\" content=\"" p.lines = false) := by
  refine ⟨?_, ?_, ?_, ?_, ?_, ?_, ?_, ?_, ?_, ?_, ?_, ?_, ?_, ?_, ?_, ?_, ?_, ?_, ?_, ?_, ?_, ?_⟩ <;>
    intro h <;>
    rw [anyLineStarts, List.any_eq_false] <;>
    intro x hx <;>
    first
    | (rcases seo_mem_lines hx with
        ⟨hf, rfl⟩ | ⟨hf, rfl⟩ | ⟨hf, rfl⟩ | ⟨hf, rfl⟩ | ⟨hf, rfl⟩ | ⟨hf, rfl⟩ | ⟨hf, rfl⟩ <;>
        first
        | (rw [h] at hf; exact absurd hf (by decide))
        | exact not_startsWith_line _ _ _ _ (by decide))
    | (rcases og_mem_lines hx with
        ⟨hf, rfl⟩ | ⟨hf, rfl⟩ | ⟨hf, rfl⟩ | ⟨hf, rfl⟩ | ⟨hf, rfl⟩ | ⟨hf, rfl⟩ <;>
        first
        | (rw [h] at hf; exact absurd hf (by decide))
        | exact not_startsWith_line _ _ _ _ (by decide))
    | (rcases tw_mem_lines hx with
        ⟨hf, rfl⟩ | ⟨hf, rfl⟩ | ⟨hf, rfl⟩ | ⟨hf, rfl⟩ | ⟨hf, rfl⟩ | ⟨hf, rfl⟩ <;>
        first
        | (rw [h] at hf; exact absurd hf (by decide))
        | exact not_startsWith_line _ _ _ _ (by decide))
    | (rcases pg_mem_lines hx with
        ⟨hf, rfl⟩ | ⟨hf, rfl⟩ | ⟨hf, rfl⟩ <;>
        first
        | (rw [h] at hf; exact absurd hf (by decide))
        | exact not_startsWith_line _ _ _ _ (by decide))

/-- C4 witness: a fresh SEO instance has no title, and its output
contains no title line. -/
theorem c4_witness :
    (SEOMetaTags.init ⟨true⟩).title = none
    ∧ anyLineStarts "<title>" (SEOMetaTags.init ⟨true⟩).lines = false :=
  ⟨rfl, (c4_absent_field_emits_no_line (SEOMetaTags.init ⟨true⟩)
    (OpenGraphMetaTags.init ⟨true⟩) (TwitterMetaTags.init ⟨true⟩)
    (PageMetaTags.init ⟨true⟩)).1 rfl⟩

/-- C5: order stability — whatever field state the caller has produced
(the state of a record is all that serialize sees, so the order of the
caller's assignments is immaterial), the emitted lines are a sublist of
the fixed per-component sequence: for SEO title, description, keywords,
robots, googlebot, bingbot, canonical; for Twitter card first, then
title, description, image (then creator, site); likewise for Open Graph
and page-level fields. -/
theorem c5_order_stability (s : SEOMetaTags) (t : TwitterMetaTags)
    (o : OpenGraphMetaTags) (p : PageMetaTags) :
    List.Sublist s.lines
      ["<title>" ++ s.title.getD "" ++ "</title>",
       "<meta name=\"description\" content=\"" ++ s.description.getD "" ++ "\">",
       "<meta name=\"keywords\" content=\"" ++ s.keywords.getD "" ++ "\">",
       "<meta name=\"robots\" content=\"" ++ s.robots.getD "" ++ "\">",
       "<meta name=\"googlebot\" content=\"" ++ s.googlebot.getD "" ++ "\">",
       "<meta name=\"bingbot\" content=\"" ++ s.bingbot.getD "" ++ "\">",
       "<link rel=\"canonical\" href=\"" ++ s.canonical.getD "" ++ "\">"]
    ∧ List.Sublist t.lines
      ["<meta name=\"twitter:card\" content=\"" ++ t.card.getD "" ++ "\">",
       "<meta name=\"twitter:title\" content=\"" ++ t.title.getD "" ++ "\">",
       "<meta name=\"twitter:description\" content=\"" ++ t.description.getD "" ++ "\">",
       "<meta name=\"twitter:image\" content=\"" ++ t.image.getD "" ++ "\">",
       "<meta name=\"twitter:creator\" content=\"" ++ t.creator.getD "" ++ "\">",
       "<meta name=\"twitter:site\" content=\"" ++ t.site.getD "" ++ "\">"]
    ∧ List.Sublist o.lines
      ["<meta property=\"og:title\" content=\"" ++ o.title.getD "" ++ "\">",
       "<meta property=\"og:description\" content=\"" ++ o.description.getD "" ++ "\">",
       "<meta property=\"og:image\" content=\"" ++ o.image.getD "" ++ "\">",
       "<meta property=\"og:url\" content=\"" ++ o.url.getD "" ++ "\">",
       "<meta property=\"og:type\" content=\"" ++ o.type.getD "" ++ "\">",
       "<meta property=\"og:site_name\" content=\"" ++ o.siteName.getD "" ++ "\">"]
    ∧ List.Sublist p.lines
      ["<meta charset=\"" ++ p.charset.getD "" ++ "\">",
       "<meta name=\"viewport\" content=\"" ++ p.viewport.getD "" ++ "\">",
       "<meta name=\"theme-color\" content=\"" ++ p.themeColor.getD "" ++ "\">"] := by
  refine ⟨?_, ?_, ?_, ?_⟩
  · rw [seo_lines_eq]
    exact ((((((ite_singleton_sublist _).append (ite_singleton_sublist _)).append
      (ite_singleton_sublist _)).append (ite_singleton_sublist _)).append
      (ite_singleton_sublist _)).append (ite_singleton_sublist _)).append
      (ite_singleton_sublist _)
  · rw [tw_lines_eq]
    exact (((((ite_singleton_sublist _).append (ite_singleton_sublist _)).append
      (ite_singleton_sublist _)).append (ite_singleton_sublist _)).append
      (ite_singleton_sublist _)).append (ite_singleton_sublist _)
  · rw [og_lines_eq]
    exact (((((ite_singleton_sublist _).append (ite_singleton_sublist _)).append
      (ite_singleton_sublist _)).append (ite_singleton_sublist _)).append
      (ite_singleton_sublist _)).append (ite_singleton_sublist _)
  · rw [pg_lines_eq]
    exact ((ite_singleton_sublist _).append (ite_singleton_sublist _)).append
      (ite_singleton_sublist _)

/-- C6 counterexample: after `setTitleForAll("")` the SEO record holds
the empty string, which is falsy, so serialize emits no line at all —
in particular no title line with content "" — contradicting the claim
for the string X = "". -/
theorem c6_counterexample_empty_title_fanout :
    ((CommonMetaTags.init ⟨true⟩).setTitleForAll "").seo.lines = []
    ∧ ("<title>" ++ "" ++ "</title>")
        ∉ ((CommonMetaTags.init ⟨true⟩).setTitleForAll "").seo.lines := by
  exact ⟨rfl, by decide⟩

/-- C6 (amended): for every aggregator state and every nonempty string
X, after `setTitleForAll(X)` the SEO, Open Graph and Twitter outputs
each contain their title line with content exactly X, and the page
component's serialized output is unchanged. -/
theorem c6_amended_fanout_nonempty (c : CommonMetaTags) (X : String) (h : X ≠ "") :
    ("<title>" ++ X ++ "</title>") ∈ (c.setTitleForAll X).seo.lines
    ∧ ("<meta property=\"og:title\" content=\"" ++ X ++ "\">") ∈ (c.setTitleForAll X).og.lines
    ∧ ("<meta name=\"twitter:title\" content=\"" ++ X ++ "\">") ∈ (c.setTitleForAll X).twitter.lines
    ∧ (c.setTitleForAll X).page.write = c.page.write := by
  have ht : truthy (some X) = true := by simp [truthy, h]
  refine ⟨?_, ?_, ?_, rfl⟩
  · rw [seo_lines_eq]
    simp [CommonMetaTags.setTitleForAll, ht]
  · rw [og_lines_eq]
    simp [CommonMetaTags.setTitleForAll, ht]
  · rw [tw_lines_eq]
    simp [CommonMetaTags.setTitleForAll, ht]

/-- C6 witness: fan-out at the concrete nonempty title "X" on a fresh
aggregator. -/
theorem c6_amended_witness :
    ("X" : String) ≠ ""
    ∧ ("<title>" ++ "X" ++ "</title>")
        ∈ ((CommonMetaTags.init ⟨true⟩).setTitleForAll "X").seo.lines :=
  ⟨by decide, (c6_amended_fanout_nonempty (CommonMetaTags.init ⟨true⟩) "X" (by decide)).1⟩

/-- C9: verbatim embedding — every present field value v appears
unchanged, as a contiguous substring between its template's fixed head
and tail, in the line emitted for that field: the full line built from v
with no escaping is an element of the output lines. -/
theorem c9_value_embedded_verbatim (s : SEOMetaTags) (o : OpenGraphMetaTags)
    (t : TwitterMetaTags) (p : PageMetaTags) (v : String) :
    (s.title = some v → v ≠ "" → ("<title>" ++ v ++ "</title>") ∈ s.lines)
    ∧ (s.description = some v → v ≠ "" → ("<meta name=\"description\" content=\"" ++ v ++ "\">") ∈ s.lines)
    ∧ (s.keywords = some v → v ≠ "" → ("<meta name=\"keywords\" content=\"" ++ v ++ "\">") ∈ s.lines)
    ∧ (s.robots = some v → v ≠ "" → ("<meta name=\"robots\" content=\"" ++ v ++ "\">") ∈ s.lines)
    ∧ (s.googlebot = some v → v ≠ "" → ("<meta name=\"googlebot\" content=\"" ++ v ++ "\">") ∈ s.lines)
    ∧ (s.bingbot = some v → v ≠ "" → ("<meta name=\"bingbot\" content=\"" ++ v ++ "\">") ∈ s.lines)
    ∧ (s.canonical = some v → v ≠ "" → ("<link rel=\"canonical\" href=\"" ++ v ++ "\">") ∈ s.lines)
    ∧ (o.title = some v → v ≠ "" → ("<meta property=\"og:title\" content=\"" ++ v ++ "\">") ∈ o.lines)
    ∧ (o.description = some v → v ≠ "" → ("<meta property=\"og:description\" content=\"" ++ v ++ "\">") ∈ o.lines)
    ∧ (o.image = some v → v ≠ "" → ("<meta property=\"og:image\" content=\"" ++ v ++ "\">") ∈ o.lines)
    ∧ (o.url = some v → v ≠ "" → ("<meta property=\"og:url\" content=\"" ++ v ++ "\">") ∈ o.lines)
    ∧ (o.type = some v → v ≠ "" → ("<meta property=\"og:type\" content=\"" ++ v ++ "\">") ∈ o.lines)
    ∧ (o.siteName = some v → v ≠ "" → ("<meta property=\"og:site_name\" content=\"" ++ v ++ "\">") ∈ o.lines)
    ∧ (t.card = some v → v ≠ "" → ("<meta name=\"twitter:card\" content=\"" ++ v ++ "\">") ∈ t.lines)
    ∧ (t.title = some v → v ≠ "" → ("<meta name=\"twitter:title\" content=\"" ++ v ++ "\">") ∈ t.lines)
    ∧ (t.description = some v → v ≠ "" → ("<meta name=\"twitter:description\" content=\"" ++ v ++ "\">") ∈ t.lines)
    ∧ (t.image = some v → v ≠ "" → ("<meta name=\"twitter:image\" content=\"" ++ v ++ "\">") ∈ t.lines)
    ∧ (t.creator = some v → v ≠ "" → ("<meta name=\"twitter:creator\" content=\"" ++ v ++ "\">") ∈ t.lines)
    ∧ (t.site = some v → v ≠ "" → ("<meta name=\"twitter:site\" content=\"" ++ v ++ "\">") ∈ t.lines)
    ∧ (p.charset = some v → v ≠ "" → ("<meta charset=\"" ++ v ++ "\">") ∈ p.lines)
    ∧ (p.viewport = some v → v ≠ "" → ("<meta name=\"viewport\" content=\"" ++ v ++ "\">") ∈ p.lines)
    ∧ (p.themeColor = some v → v ≠ "" → ("<meta name=\"theme-color\" content=\"" ++ v ++ "\">") ∈ p.lines) := by
  refine ⟨?_, ?_, ?_, ?_, ?_, ?_, ?_, ?_, ?_, ?_, ?_, ?_, ?_, ?_, ?_, ?_, ?_, ?_, ?_, ?_, ?_, ?_⟩ <;>
    intro h hv <;>
    first
    | (rw [seo_lines_eq]; simp [h, truthy, hv])
    | (rw [og_lines_eq]; simp [h, truthy, hv])
    | (rw [tw_lines_eq]; simp [h, truthy, hv])
    | (rw [pg_lines_eq]; simp [h, truthy, hv])

/-- C9 witness: a title value containing quote, angle-bracket and
ampersand characters is embedded verbatim in the emitted title line. -/
theorem c9_witness :
    ({ SEOMetaTags.init ⟨true⟩ with title := some "a\"<&>" } : SEOMetaTags).title = some "a\"<&>"
    ∧ ("a\"<&>" : String) ≠ ""
    ∧ ("<title>" ++ "a\"<&>" ++ "</title>")
        ∈ ({ SEOMetaTags.init ⟨true⟩ with title := some "a\"<&>" } : SEOMetaTags).lines :=
  ⟨rfl, by decide,
    (c9_value_embedded_verbatim { SEOMetaTags.init ⟨true⟩ with title := some "a\"<&>" }
      (OpenGraphMetaTags.init ⟨true⟩) (TwitterMetaTags.init ⟨true⟩)
      (PageMetaTags.init ⟨true⟩) "a\"<&>").1 rfl (by decide)⟩

/-- C10: in the combined serialize with newLine true, an empty
sub-component block still occupies its join position — with the SEO
block empty the output is the page block, two consecutive newlines, the
og block, a newline, and the twitter block; and the fully cleared
aggregator serializes to exactly three newline characters. -/
theorem c10_empty_block_keeps_join_position (c : CommonMetaTags)
    (h : c.seo.lines = []) :
    CommonMetaTags.write c { newLine := true }
        = c.page.write ++ "\n\n" ++ c.og.write ++ "\n" ++ c.twitter.write
    ∧ CommonMetaTags.write clearedCommon { newLine := true } = "\n\n\n" := by
  constructor
  · have hs : c.seo.write = "" := by
      rw [SEOMetaTags.write, h]
      rfl
    show jsJoin "\n" [c.page.write, c.seo.write, c.og.write, c.twitter.write] = _
    rw [jsJoin_four, hs,
      show ("" ++ "\n" : String) = "\n" from rfl, append_nlnl]
    simp only [String.append_assoc]
  · rfl

/-- C10 witness: the cleared aggregator's SEO block is empty, and the
join-position equality holds for it. -/
theorem c10_witness :
    clearedCommon.seo.lines = []
    ∧ CommonMetaTags.write clearedCommon { newLine := true }
        = clearedCommon.page.write ++ "\n\n" ++ clearedCommon.og.write
          ++ "\n" ++ clearedCommon.twitter.write :=
  ⟨rfl, (c10_empty_block_keeps_join_position clearedCommon rfl).1⟩

end MetaTagsWriter
